import Mathlib

/-!
# PiGuard — verification of the event-pipeline specification

A shallow embedding of the PiGuard host-security agent (Go) into Lean 4,
covering the event model (`pkg/models`), the deduplicator
(`internal/analysers/dedup.go`), the daemon ingest sink
(`internal/daemon/daemon.go`), the port / firewall / docker watchers
(`internal/watchers/{netlink,firewall,docker}.go`), the event store
(`internal/store/sqlite.go`), config validation
(`internal/config/config.go`) and the interactive Telegram command
handler's confirmation state machine.

Modelling conventions:
* wall-clock instants and durations are `Int` (Unix seconds); `time.Now()`
  becomes an explicit `now` parameter threaded to each call;
* Go maps become association lists updated by `mapSet` (last write wins)
  or, for the deduplicator, a total function `String → Option Int`;
* external probes (`ss`, `iptables`, `docker ps`, regex compilation,
  SHA-256) are inputs: functions supplied to the watcher, mirroring the
  injectable `runDockerPS` that the repository's own tests use;
* fallible calls return `Option` / a success flag.
-/

namespace PiGuard

/-! ## Event model — `pkg/models` (src/unnamed/part_014) -/

/-- Embeds `models.Severity`: `Info < Warning < Critical` (Go ints 0, 1, 2). -/
inductive Severity where
  | info
  | warning
  | critical
deriving DecidableEq, Repr

/-- The Go `Severity` constants are `iota` ints; used by the store column. -/
def sevInt : Severity → Int
  | .info => 0
  | .warning => 1
  | .critical => 2

/-- Inverse of `sevInt` on the enum's range (for JSON decoding). -/
def sevOfInt (n : Int) : Option Severity :=
  if n = 0 then some .info
  else if n = 1 then some .warning
  else if n = 2 then some .critical
  else none

/-- Embeds the `models.EventType` constants (a Go string type). -/
def EventPortOpened : String := "port.opened"
def EventPortClosed : String := "port.closed"
def EventFirewallChanged : String := "firewall.changed"
def EventDiskHigh : String := "system.disk_high"
def EventContainerDied : String := "docker.container_died"
def EventContainerStart : String := "docker.container_start"
def EventContainerHealth : String := "docker.container_unhealthy"
def EventContainerStopped : String := "docker.container_stopped"

/-- Embeds `models.PortInfo` (part_014 lines 61-69). `pid` is a Go int. -/
structure PortInfo where
  address : String
  protocol : String
  pid : Int
  processName : String
  containerName : String
  containerID : String
  isExposed : Bool
deriving DecidableEq, Repr

/-- Embeds `models.FirewallState` (part_014 lines 79-85). -/
structure FirewallState where
  chain : String
  table : String
  policy : String
  ruleHash : String
  hasDropRule : Bool
deriving DecidableEq, Repr

/-- Embeds `models.SystemHealth` (part_014 lines 88-96). `cpuTempCelsius` is a Go
float64; the embedding models it as `Int` (Go's JSON encoder round-trips
float64 exactly, so the integer model preserves the round-trip question). -/
structure SystemHealth where
  diskUsagePercent : Int
  memoryUsedPercent : Int
  cpuTempCelsius : Int
  uptimeSeconds : Int
  containersRunning : Int
  containersHealthy : Int
  listeningPorts : Int
deriving DecidableEq, Repr

/-- Embeds `models.Event` (part_014 lines 99-114). `etype` is the Go field `Type`
(`Type` is a Lean keyword); `timestamp` is `time.Time` as Unix seconds. -/
structure Event where
  id : String
  etype : String
  severity : Severity
  hostname : String
  timestamp : Int
  message : String
  details : String
  suggested : String
  source : String
  port : Option PortInfo
  firewall : Option FirewallState
  health : Option SystemHealth
deriving DecidableEq, Repr

/-! ## Deduplicator — `internal/analysers/dedup.go` -/

/-- Embeds `analysers.Deduplicator`: `seen` maps a dedup key to the last sent
time; `cooldown` is a duration. -/
structure Deduplicator where
  seen : String → Option Int
  cooldown : Int

/-- Embeds `dedupKey` (dedup.go lines 56-68): `type:port.address` for the port
events when the port payload is present, `type:firewall.chain` for
`firewall.changed` when the firewall payload is present, otherwise
`type:message` (the Go switch falls through to the final return). -/
def dedupKey (event : Event) : String :=
  if event.etype = EventPortOpened ∨ event.etype = EventPortClosed then
    match event.port with
    | some p => event.etype ++ ":" ++ p.address
    | none => event.etype ++ ":" ++ event.message
  else if event.etype = EventFirewallChanged then
    match event.firewall with
    | some f => event.etype ++ ":" ++ f.chain
    | none => event.etype ++ ":" ++ event.message
  else
    event.etype ++ ":" ++ event.message

/-- Embeds `Deduplicator.ShouldAlert` (dedup.go lines 28-41): returns true and
stores `now` when the key is unseen or `now - lastSent > cooldown`;
otherwise returns false leaving the table unchanged. The function never
reads `event.Severity` — all severities, including Critical, respect the
cooldown (the current `dedup_test.go` pins this with
`TestShouldAlert_CriticalFirstAlerts_ThenDeduped`). -/
def ShouldAlert (d : Deduplicator) (now : Int) (event : Event) : Bool × Deduplicator :=
  let key := dedupKey event
  match d.seen key with
  | none =>
    (true, { d with seen := fun k => if k = key then some now else d.seen k })
  | some lastSent =>
    if now - lastSent > d.cooldown then
      (true, { d with seen := fun k => if k = key then some now else d.seen k })
    else
      (false, d)

/-- C1: `ShouldAlert` returns true iff the dedup key has no entry or
`now − last_emit > cooldown`; on true the entry is set to `now` (others
unchanged), on false the table is unchanged; the rule ignores severity,
so the first occurrence of any key — Critical included — returns true. -/
theorem C1_shouldAlert_cooldown_gate (d : Deduplicator) (now : Int) (e : Event) :
    ((ShouldAlert d now e).1 = true ↔
      (d.seen (dedupKey e) = none ∨
        ∃ t, d.seen (dedupKey e) = some t ∧ now - t > d.cooldown))
    ∧ ((ShouldAlert d now e).1 = true →
        (ShouldAlert d now e).2.seen =
          fun k => if k = dedupKey e then some now else d.seen k)
    ∧ ((ShouldAlert d now e).1 = false → (ShouldAlert d now e).2 = d)
    ∧ (∀ s : Severity, ShouldAlert d now { e with severity := s } = ShouldAlert d now e)
    ∧ (d.seen (dedupKey e) = none → (ShouldAlert d now e).1 = true)
    ∧ (∀ p, e.port = some p → e.etype = EventPortOpened ∨ e.etype = EventPortClosed →
        dedupKey e = e.etype ++ ":" ++ p.address)
    ∧ (∀ f, e.firewall = some f → e.etype = EventFirewallChanged →
        dedupKey e = e.etype ++ ":" ++ f.chain)
    ∧ (e.port = none → e.firewall = none →
        dedupKey e = e.etype ++ ":" ++ e.message) := by
  refine ⟨?_, ?_, ?_, ?_, ?_, ?_, ?_, ?_⟩
  · unfold ShouldAlert
    cases hs : d.seen (dedupKey e) with
    | none => simp [hs]
    | some t =>
      by_cases h : now - t > d.cooldown
      · simp [hs, h]
      · simp [hs, h]
  · unfold ShouldAlert
    cases hs : d.seen (dedupKey e) with
    | none => simp [hs]
    | some t =>
      by_cases h : now - t > d.cooldown
      · simp [hs, h]
      · simp [hs, h]
  · unfold ShouldAlert
    cases hs : d.seen (dedupKey e) with
    | none => simp [hs]
    | some t =>
      by_cases h : now - t > d.cooldown
      · simp [hs, h]
      · simp [hs, h]
  · intro s
    show ShouldAlert d now { e with severity := s } = ShouldAlert d now e
    unfold ShouldAlert
    rfl
  · intro hnone
    unfold ShouldAlert
    simp [hnone]
  · intro p hp ht
    unfold dedupKey
    rw [hp, if_pos ht]
  · intro f hf ht
    unfold dedupKey
    rw [ht, hf, if_neg (by decide)]
    rfl
  · intro hp hf
    unfold dedupKey
    rw [hp, hf]
    by_cases h1 : e.etype = EventPortOpened ∨ e.etype = EventPortClosed
    · rw [if_pos h1]
    · rw [if_neg h1]
      by_cases h2 : e.etype = EventFirewallChanged
      · rw [if_pos h2]
      · rw [if_neg h2]

/-! ## Daemon ingest sink — `internal/daemon/daemon.go` `handleEvent` -/

/-- An observable side effect of the ingest sink: a store save (with its
success flag; a failed save is only logged) or a notifier `Send`. -/
inductive Action where
  | save (e : Event) (ok : Bool)
  | notify (notifier : String) (e : Event)
deriving DecidableEq, Repr

/-- Embeds `Daemon.handleEvent` (daemon.go lines 174-192): save to the store
(best effort), then run the dedup gate, then — only if the gate passes —
invoke every notifier in order. `saveErr` is whether `store.SaveEvent`
failed; the returned list is the ordered trace of side effects. -/
def handleEvent (dedup : Deduplicator) (notifiers : List String) (now : Int)
    (saveErr : Bool) (e : Event) : Deduplicator × List Action :=
  let saved := Action.save e (!saveErr)
  let gate := ShouldAlert dedup now e
  if gate.1 then
    (gate.2, saved :: notifiers.map (fun n => Action.notify n e))
  else
    (gate.2, [saved])

/-- C2: the save is the first action of the trace and every later action
is a notifier send for the same event; when the dedup gate refuses, the
event is saved and no notifier receives it; and a save failure changes
neither the dedup outcome nor the notifier fanout. -/
theorem C2_save_happens_before_notify (dedup : Deduplicator)
    (notifiers : List String) (now : Int) (saveErr : Bool) (e : Event) :
    ((handleEvent dedup notifiers now saveErr e).2.head? =
      some (Action.save e (!saveErr)))
    ∧ (∀ a ∈ (handleEvent dedup notifiers now saveErr e).2.tail,
        ∃ n, n ∈ notifiers ∧ a = Action.notify n e)
    ∧ ((ShouldAlert dedup now e).1 = false →
        (handleEvent dedup notifiers now saveErr e).2 = [Action.save e (!saveErr)])
    ∧ ((ShouldAlert dedup now e).1 = true →
        (handleEvent dedup notifiers now saveErr e).2 =
          Action.save e (!saveErr) :: notifiers.map (fun n => Action.notify n e))
    ∧ ((handleEvent dedup notifiers now true e).1 =
        (handleEvent dedup notifiers now false e).1)
    ∧ ((handleEvent dedup notifiers now true e).2.tail =
        (handleEvent dedup notifiers now false e).2.tail) := by
  refine ⟨?_, ?_, ?_, ?_, ?_, ?_⟩
  · unfold handleEvent
    by_cases h : (ShouldAlert dedup now e).1 <;> simp [h]
  · unfold handleEvent
    by_cases h : (ShouldAlert dedup now e).1 <;> simp [h]
  · intro h
    unfold handleEvent
    simp [h]
  · intro h
    unfold handleEvent
    simp [h]
  · unfold handleEvent
    by_cases h : (ShouldAlert dedup now e).1 <;> simp [h]
  · unfold handleEvent
    by_cases h : (ShouldAlert dedup now e).1 <;> simp [h]

/-! ## Port watcher emissions — `internal/watchers/netlink.go` -/

/-- Embeds `PortInfo.RiskLevel` (part_014 lines 71-76): Info when not exposed,
Warning when exposed. -/
def RiskLevel (p : PortInfo) : Severity :=
  if !p.isExposed then .info else .warning

/-- The `isExposed` derivation of `parseSsLine` (netlink.go lines
164-169), given the host component of a successfully split local
address: exposed iff the host is `0.0.0.0`, `::` or `*`. -/
def isExposedOfHost (host : String) : Bool :=
  host = "0.0.0.0" || host = "::" || host = "*"

/-- Embeds `NetlinkWatcher.emitPortOpened` (netlink.go lines 202-235). -/
def emitPortOpened (hostname : String) (now : Int) (port : PortInfo) : Event :=
  let severity := RiskLevel port
  let msg :=
    if port.containerName ≠ "" then
      "New listening port: " ++ port.address ++ " → " ++ port.processName ++
        " (container: " ++ port.containerName ++ ")"
    else
      "New listening port: " ++ port.address ++ " → " ++ port.processName
  let details :=
    if port.isExposed then "Bound to all interfaces — accessible from network"
    else "Localhost only — not network accessible ✓"
  let suggested :=
    if port.isExposed then
      "If this should be local-only, bind to 127.0.0.1 instead of 0.0.0.0"
    else ""
  let severity := if port.isExposed then Severity.warning else severity
  { id := "port-open-" ++ port.address ++ "-" ++ toString now
    etype := EventPortOpened
    severity := severity
    hostname := hostname
    timestamp := now
    message := msg
    details := details
    suggested := suggested
    source := "netlink"
    port := some port
    firewall := none
    health := none }

/-- Embeds `NetlinkWatcher.emitPortClosed` (netlink.go lines 237-249). -/
def emitPortClosed (hostname : String) (now : Int) (port : PortInfo) : Event :=
  { id := "port-close-" ++ port.address ++ "-" ++ toString now
    etype := EventPortClosed
    severity := .info
    hostname := hostname
    timestamp := now
    message := "Port closed: " ++ port.address ++ " → " ++ port.processName
    details := ""
    suggested := ""
    source := "netlink"
    port := some port
    firewall := none
    health := none }

/-- C4: a `port.opened` event has Severity Warning iff its port payload
is exposed (host component `0.0.0.0`, `::` or `*`), otherwise Info;
every `port.closed` event has Severity Info; both carry the port as
payload. -/
theorem C4_port_opened_severity (hostname : String) (now : Int) (p : PortInfo) :
    ((emitPortOpened hostname now p).severity = .warning ↔ p.isExposed = true)
    ∧ (p.isExposed = false → (emitPortOpened hostname now p).severity = .info)
    ∧ ((emitPortClosed hostname now p).severity = .info)
    ∧ ((emitPortOpened hostname now p).port = some p)
    ∧ ((emitPortOpened hostname now p).etype = EventPortOpened)
    ∧ ((emitPortClosed hostname now p).etype = EventPortClosed)
    ∧ (∀ host, isExposedOfHost host = true ↔
        (host = "0.0.0.0" ∨ host = "::" ∨ host = "*")) := by
  refine ⟨?_, ?_, rfl, rfl, rfl, rfl, ?_⟩
  · unfold emitPortOpened
    cases h : p.isExposed <;> simp [h, RiskLevel]
  · intro h
    unfold emitPortOpened
    simp [h, RiskLevel]
  · intro host
    unfold isExposedOfHost
    simp [Bool.or_eq_true, decide_eq_true_eq, or_assoc]

/-! ## Go map / string helpers -/

/-- Go map assignment `m[k] = v`: last write wins. -/
def mapSet {α : Type} (m : List (String × α)) (k : String) (v : α) :
    List (String × α) :=
  (m.filter fun kv => kv.1 ≠ k) ++ [(k, v)]

/-- Go map read `m[k]` (the comma-ok form: `none` means absent). -/
def lookupKey {α : Type} (m : List (String × α)) (k : String) : Option α :=
  match m with
  | [] => none
  | kv :: rest => if kv.1 = k then some kv.2 else lookupKey rest k

theorem lookupKey_mem {α : Type} {m : List (String × α)} {k : String} {v : α}
    (h : lookupKey m k = some v) : (k, v) ∈ m := by
  induction m with
  | nil => simp [lookupKey] at h
  | cons kv rest ih =>
    unfold lookupKey at h
    by_cases hk : kv.1 = k
    · rw [if_pos hk] at h
      cases h
      have hkv2 : (k, kv.2) = kv := by
        obtain ⟨a, b⟩ := kv
        simp only at hk
        rw [hk]
      rw [hkv2]
      exact List.mem_cons_self _ _
    · rw [if_neg hk] at h
      exact List.mem_cons_of_mem _ (ih h)

/-- Embeds `strings.HasSuffix`. -/
def goHasSuffix (s suffix : String) : Bool := suffix.data.isSuffixOf s.data

/-- Embeds `strings.HasPrefix`. -/
def goHasPrefixStr (s pre : String) : Bool := pre.data.isPrefixOf s.data

/-- Embeds `strings.TrimSuffix`. -/
def goTrimSuffix (s suffix : String) : String :=
  if goHasSuffix s suffix then
    String.mk (s.data.take (s.data.length - suffix.data.length))
  else s

def asciiUpperChar (c : Char) : Char :=
  if 'a' ≤ c ∧ c ≤ 'z' then Char.ofNat (c.toNat - 32) else c

def asciiLowerChar (c : Char) : Char :=
  if 'A' ≤ c ∧ c ≤ 'Z' then Char.ofNat (c.toNat + 32) else c

/-- Embeds `strings.ToUpper` (ASCII arguments only in this code base). -/
def goToUpper (s : String) : String := String.mk (s.data.map asciiUpperChar)

/-- Embeds `strings.ToLower` (ASCII arguments only in this code base). -/
def goToLower (s : String) : String := String.mk (s.data.map asciiLowerChar)

/-- Embeds `strings.EqualFold`, modelled as simple lower-casing (the strings the
firewall watcher compares are ASCII policy names). -/
def goEqualFold (s t : String) : Bool := goToLower s = goToLower t

/-! ## Port watcher diffing — `internal/watchers/netlink.go` -/

/-- Embeds `matchAddrPattern` (netlink.go lines 190-200): exact match, or a
`host:*` wildcard pattern matching on the prefix before the `*`. -/
def matchAddrPattern (addr pattern : String) : Bool :=
  if pattern = addr then true
  else if goHasSuffix pattern ":*" then
    goHasPrefixStr addr (goTrimSuffix pattern "*")
  else false

/-- Embeds `NetlinkWatcher.isIgnored` (netlink.go lines 180-187). -/
def isIgnored (ignore : List String) (addr : String) : Bool :=
  ignore.any fun pattern => matchAddrPattern addr pattern

/-- The port baseline built by address, as in `check`'s `currentMap` loop
and `Start`'s baseline loop (`baseline[p.Address] = p`). -/
def buildPortMap (ports : List PortInfo) : List (String × PortInfo) :=
  ports.foldl (fun m p => mapSet m p.address p) []

theorem buildPortMap_key {ports : List PortInfo} :
    ∀ kv ∈ buildPortMap ports, kv.1 = kv.2.address := by
  have aux : ∀ (l : List PortInfo) (m : List (String × PortInfo)),
      (∀ kv ∈ m, kv.1 = kv.2.address) →
      ∀ kv ∈ l.foldl (fun m p => mapSet m p.address p) m, kv.1 = kv.2.address := by
    intro l
    induction l with
    | nil => intro m hm kv hkv; exact hm kv hkv
    | cons p t ih =>
      intro m hm kv hkv
      refine ih (mapSet m p.address p) ?_ kv hkv
      intro kv' hkv'
      unfold mapSet at hkv'
      rcases List.mem_append.1 hkv' with h | h
      · exact hm kv' (List.mem_of_mem_filter h)
      · simp at h
        rw [h]
  exact aux ports [] (by intro kv h; simp at h)

/-- Embeds `NetlinkWatcher.check` (netlink.go lines 72-103): scan result `current`
is keyed by address; a new address emits `port.opened` unless ignored, a
vanished address emits `port.closed` (no ignore filter), and the baseline
is replaced wholesale by the current snapshot. -/
def netlinkCheck (ignore : List String) (hostname : String) (now : Int)
    (baseline : List (String × PortInfo)) (current : List PortInfo) :
    List (String × PortInfo) × List Event :=
  let currentMap := buildPortMap current
  let opened := currentMap.filterMap fun kv =>
    if lookupKey baseline kv.1 = none then
      if isIgnored ignore kv.1 then none
      else some (emitPortOpened hostname now kv.2)
    else none
  let closed := baseline.filterMap fun kv =>
    if lookupKey currentMap kv.1 = none then
      some (emitPortClosed hostname now kv.2)
    else none
  (currentMap, opened ++ closed)

/-- The start-up phase of `NetlinkWatcher.Start` (netlink.go lines 43-55):
the initial scan only seeds `baseline[p.Address] = p`; no `Publish` call
occurs before the first tick. -/
def netlinkStart (initialScan : List PortInfo) :
    List (String × PortInfo) × List Event :=
  (buildPortMap initialScan, [])

/-- C10: ignore patterns suppress only `port.opened` — no opened event is
ever emitted for an ignored address — yet the ignored address still
enters the replaced baseline, so once it vanishes from a later scan a
`port.closed` event (Severity Info) is emitted for it. -/
theorem C10_ignore_only_suppresses_opened (ignore : List String)
    (hostname : String) (now now2 : Int) (baseline : List (String × PortInfo))
    (current current2 : List PortInfo) (p : PortInfo) :
    (∀ ev ∈ (netlinkCheck ignore hostname now baseline current).2,
        ev.etype = EventPortOpened →
          ∀ q, ev.port = some q → isIgnored ignore q.address = false)
    ∧ ((netlinkCheck ignore hostname now baseline current).1 = buildPortMap current)
    ∧ (lookupKey (buildPortMap current) p.address = some p →
        lookupKey (buildPortMap current2) p.address = none →
          emitPortClosed hostname now2 p ∈
            (netlinkCheck ignore hostname now2
              (netlinkCheck ignore hostname now baseline current).1 current2).2)
    ∧ ((emitPortClosed hostname now2 p).severity = .info) := by
  refine ⟨?_, rfl, ?_, rfl⟩
  · intro ev hev hty q hq
    unfold netlinkCheck at hev
    rcases List.mem_append.1 hev with h | h
    · rcases List.mem_filterMap.1 h with ⟨kv, hkv, hf⟩
      by_cases hb : lookupKey baseline kv.1 = none
      · rw [if_pos hb] at hf
        by_cases hi : isIgnored ignore kv.1
        · rw [if_pos hi] at hf
          cases hf
        · rw [if_neg hi] at hf
          cases hf
          have hport : q = kv.2 := by
            have : some kv.2 = some q := hq
            cases this
            rfl
          have hkey := buildPortMap_key kv hkv
          rw [hport, ← hkey]
          exact Bool.not_eq_true _ ▸ (by simpa using hi)
      · rw [if_neg hb] at hf
        cases hf
    · rcases List.mem_filterMap.1 h with ⟨kv, hkv, hf⟩
      by_cases hc : lookupKey (buildPortMap current) kv.1 = none
      · rw [if_pos hc] at hf
        cases hf
        simp [emitPortClosed, EventPortClosed, EventPortOpened] at hty
      · rw [if_neg hc] at hf
        cases hf
  · intro hmem hgone
    unfold netlinkCheck
    refine List.mem_append.2 (Or.inr ?_)
    refine List.mem_filterMap.2 ⟨(p.address, p), lookupKey_mem hmem, ?_⟩
    rw [if_pos hgone]

/-! ## Firewall watcher — `internal/watchers/firewall.go` -/

/-- Embeds `config.ChainConfig` (config.go lines 77-82). -/
structure ChainConfig where
  table : String
  chain : String
  expectPolicy : String
  expectRule : String
deriving DecidableEq, Repr

/-- The external probes the firewall watcher calls: `getRules` (`none` =
iptables command failed), `getPolicy` (already parsed; `UNKNOWN` on
failure), and the regex library (`rxValid` = `regexp.Compile` succeeds,
`rxMatch pattern rule` = `re.MatchString(rule)`). -/
structure FirewallEnv where
  rules : String → String → Option (List String)
  policy : String → String → String
  rxValid : String → Bool
  rxMatch : String → String → Bool

/-- Embeds `FirewallWatcher.checkExpectations` (firewall.go lines 78-144): for
each configured chain whose rules are readable, publish a Critical
`firewall.changed` event when the expected policy differs
(case-insensitively) and when the expected rule pattern matches no rule;
an invalid regex only skips that chain's rule check. -/
def checkExpectations (env : FirewallEnv) (hostname : String) (now : Int) :
    List ChainConfig → List Event
  | [] => []
  | chain :: rest =>
    let tail := checkExpectations env hostname now rest
    match env.rules chain.table chain.chain with
    | none => tail
    | some rules =>
      let policyEvents :=
        if chain.expectPolicy ≠ "" then
          let policy := env.policy chain.table chain.chain
          if ¬ goEqualFold policy chain.expectPolicy then
            [{ id := "fw-policy-" ++ chain.chain ++ "-" ++ toString now
               etype := EventFirewallChanged
               severity := .critical
               hostname := hostname
               timestamp := now
               message := "Firewall policy changed: " ++ chain.chain ++ " is " ++
                 policy ++ " (expected " ++ chain.expectPolicy ++ ")"
               details := ""
               suggested := "Run: sudo iptables -P " ++ chain.chain ++ " " ++
                 chain.expectPolicy
               source := "firewall"
               port := none
               firewall := some (FirewallState.mk chain.chain chain.table policy "" false)
               health := none }]
          else []
        else []
      let ruleEvents :=
        if chain.expectRule ≠ "" then
          if ¬ env.rxValid chain.expectRule then []
          else if rules.any (fun rule => env.rxMatch chain.expectRule rule) then []
          else
            [{ id := "fw-rule-" ++ chain.chain ++ "-" ++ toString now
               etype := EventFirewallChanged
               severity := .critical
               hostname := hostname
               timestamp := now
               message := "Expected rule missing in " ++ chain.chain ++
                 " chain (pattern: " ++ chain.expectRule ++ ")"
               details := ""
               suggested := "Check your DOCKER-USER chain: sudo iptables -L DOCKER-USER -n --line-numbers"
               source := "firewall"
               port := none
               firewall := some (FirewallState.mk chain.chain chain.table "" "" false)
               health := none }]
        else []
      policyEvents ++ ruleEvents ++ tail

/-- The start-up phase of `FirewallWatcher.Start` (firewall.go lines
41-56): seed `baselines[chain] = hash(rules)` for each readable chain
(silently), then run `checkExpectations` immediately — before the first
tick. `hashRules` abstracts the SHA-256 digest. -/
def firewallStart (env : FirewallEnv) (hashRules : List String → String)
    (hostname : String) (now : Int) (chains : List ChainConfig) :
    List (String × String) × List Event :=
  let baselines := chains.foldl
    (fun m chain =>
      match env.rules chain.table chain.chain with
      | none => m
      | some rules => mapSet m chain.chain (hashRules rules))
    []
  (baselines, checkExpectations env hostname now chains)

/-! ## Docker watcher — `internal/watchers/docker.go` -/

/-- Embeds `watchers.containerState` (docker.go lines 20-26). -/
structure ContainerState where
  id : String
  names : String
  image : String
  state : String
  status : String
deriving DecidableEq, Repr

/-- The container baseline keyed by ID (`baseline[c.ID] = c`). -/
def buildContainerMap (cs : List ContainerState) : List (String × ContainerState) :=
  cs.foldl (fun m c => mapSet m c.id c) []

/-- The start-up phase of `DockerWatcher.Start` (docker.go lines 56-67):
the initial `fetchContainers` only seeds the baseline (empty when docker
is unavailable); no event is published before the first tick. -/
def dockerStart (fetched : Option (List ContainerState)) :
    List (String × ContainerState) × List Event :=
  match fetched with
  | some cs => (buildContainerMap cs, [])
  | none => ([], [])

/-- Embeds `strings.Contains`: `sub` occurs inside `s`. -/
def containsSub (sub : List Char) : List Char → Bool
  | [] => sub.isPrefixOf []
  | c :: t => sub.isPrefixOf (c :: t) || containsSub sub t

def goContains (s sub : String) : Bool := containsSub sub.data s.data

/-- Embeds `isUnhealthy` (docker.go lines 192-194). -/
def isUnhealthy (status : String) : Bool := goContains status "(unhealthy)"

def digitsToNat (ds : List Char) : Nat :=
  ds.foldl (fun acc c => acc * 10 + (c.toNat - Char.toNat '0')) 0

/-- Embeds `strconv.Atoi` under the `code, _ := strconv.Atoi(...)` idiom: the
parsed integer, or 0 when the input is not a valid integer (overflow
clamping is outside the model — container exit codes fit easily). -/
def goAtoi (s : List Char) : Int :=
  match s with
  | [] => 0
  | '+' :: rest =>
    if !rest.isEmpty && rest.all Char.isDigit then (digitsToNat rest : Int) else 0
  | '-' :: rest =>
    if !rest.isEmpty && rest.all Char.isDigit then -(digitsToNat rest : Int) else 0
  | c :: rest =>
    if (c :: rest).all Char.isDigit then (digitsToNat (c :: rest) : Int) else 0

/-- Embeds `parseExitCode` (docker.go lines 181-189): the integer between the
first `(` and the first `)` of the status string, 0 when absent or when
the first `)` is not after the first `(`. -/
def parseExitCode (status : String) : Int :=
  let cs := status.data
  match cs.findIdx? (· = '('), cs.findIdx? (· = ')') with
  | some start, some stop =>
    if stop ≤ start then 0
    else goAtoi ((cs.drop (start + 1)).take (stop - (start + 1)))
  | _, _ => 0

/-- Embeds `DockerWatcher.emit` (docker.go lines 135-152). -/
def dockerEmit (hostname : String) (now : Int) (evType : String)
    (sev : Severity) (msg suggested : String) (c : ContainerState) : Event :=
  let shortID := if 12 < c.id.data.length then String.mk (c.id.data.take 12) else c.id
  { id := evType ++ "-" ++ shortID ++ "-" ++ toString now
    etype := evType
    severity := sev
    hostname := hostname
    timestamp := now
    message := msg
    details := "Image: " ++ c.image ++ " | Status: " ++ c.status
    suggested := suggested
    source := "docker"
    port := none
    firewall := none
    health := none }

/-- The known-container body of `DockerWatcher.check` (docker.go lines
107-129): the running→exited transition emits `container_died` (Warning)
on a non-zero parsed exit code, else `container_stopped` (Info) only when
`alert_on_stop` is set; a health flip to `(unhealthy)` emits
`container_unhealthy` (Warning); exited→running emits a restart. -/
def checkContainer (alertOnStop : Bool) (hostname : String) (now : Int)
    (prev c : ContainerState) : List Event :=
  let fromRunning :=
    if prev.state = "running" ∧ c.state = "exited" then
      let exitCode := parseExitCode c.status
      if exitCode ≠ 0 then
        [dockerEmit hostname now EventContainerDied .warning
          ("Container crashed: " ++ c.names ++ " (exit " ++ toString exitCode ++ ")")
          ("Check container logs: docker logs " ++ c.names) c]
      else if alertOnStop then
        [dockerEmit hostname now EventContainerStopped .info
          ("Container stopped: " ++ c.names) "" c]
      else []
    else []
  let healthEvents :=
    if isUnhealthy c.status && !isUnhealthy prev.status then
      [dockerEmit hostname now EventContainerHealth .warning
        ("Container unhealthy: " ++ c.names)
        ("Check container logs: docker logs " ++ c.names) c]
    else []
  let restart :=
    if prev.state = "exited" ∧ c.state = "running" then
      [dockerEmit hostname now EventContainerStart .info
        ("Container restarted: " ++ c.names ++ " (" ++ c.image ++ ")") "" c]
    else []
  fromRunning ++ healthEvents ++ restart

/-- Embeds `DockerWatcher.check` (docker.go lines 82-133): unknown containers
alert only when running; known containers go through the transition
logic; the baseline is replaced by the current snapshot. -/
def dockerCheck (alertOnStop : Bool) (hostname : String) (now : Int)
    (baseline : List (String × ContainerState)) (containers : List ContainerState) :
    List (String × ContainerState) × List Event :=
  let current := buildContainerMap containers
  let events := current.foldr
    (fun kv acc =>
      (match lookupKey baseline kv.1 with
       | none =>
         if kv.2.state = "running" then
           [dockerEmit hostname now EventContainerStart .info
             ("Container started: " ++ kv.2.names ++ " (" ++ kv.2.image ++ ")") "" kv.2]
         else []
       | some prev => checkContainer alertOnStop hostname now prev kv.2) ++ acc)
    []
  (current, events)

theorem checkExpectations_eq_nil (env : FirewallEnv) (hostname : String)
    (now : Int) (chains : List ChainConfig)
    (h : ∀ c ∈ chains, c.expectPolicy = "" ∧ c.expectRule = "") :
    checkExpectations env hostname now chains = [] := by
  induction chains with
  | nil => rfl
  | cons c t ih =>
    obtain ⟨hp, hr⟩ := h c (List.mem_cons_self c t)
    have ht : checkExpectations env hostname now t = [] :=
      ih fun x hx => h x (List.mem_cons_of_mem c hx)
    unfold checkExpectations
    cases hrule : env.rules c.table c.chain with
    | none => exact ht
    | some rules => simp [hp, hr, ht]

/-- A chain configured to expect policy DROP while the live chain's
policy reads ACCEPT — pre-existing state violating an expectation. -/
def fwCexChain : ChainConfig :=
  { table := "filter", chain := "INPUT", expectPolicy := "DROP", expectRule := "" }

def fwCexEnv : FirewallEnv :=
  { rules := fun _ _ => some []
    policy := fun _ _ => "ACCEPT"
    rxValid := fun _ => true
    rxMatch := fun _ _ => false }

/-- C3 counterexample: the firewall watcher's start-up phase is not
silent — with a pre-existing expectation violation (policy ACCEPT where
DROP is expected), `Start` publishes a `firewall.changed` event before
the first tick, because it calls `checkExpectations` immediately after
seeding the baseline (firewall.go line 55). -/
theorem C3_cex_firewall_start_publishes :
    (firewallStart fwCexEnv (fun _ => "") "pi" 0 [fwCexChain]).2 ≠ [] := by
  decide

/-- C3 (amended): the port and container watchers publish nothing while
seeding their baselines, and the firewall watcher seeds its drift
baseline silently; but the firewall watcher runs its expectation check
immediately at start-up, so its start-up publications are exactly the
expectation-violation events — in particular they are empty whenever no
chain carries an expectation. -/
theorem C3_startup_baselines_silent (initialScan : List PortInfo)
    (fetched : Option (List ContainerState)) (env : FirewallEnv)
    (hashRules : List String → String) (hostname : String) (now : Int)
    (chains : List ChainConfig) :
    ((netlinkStart initialScan).2 = [])
    ∧ ((dockerStart fetched).2 = [])
    ∧ ((firewallStart env hashRules hostname now chains).2 =
        checkExpectations env hostname now chains)
    ∧ ((∀ c ∈ chains, c.expectPolicy = "" ∧ c.expectRule = "") →
        (firewallStart env hashRules hostname now chains).2 = []) := by
  refine ⟨rfl, ?_, rfl, ?_⟩
  · cases fetched <;> rfl
  · intro h
    exact checkExpectations_eq_nil env hostname now chains h

/-- Every event `checkContainer` can emit, with the branch conditions
that emitted it. -/
theorem checkContainer_cases (alertOnStop : Bool) (hostname : String)
    (now : Int) (prev c : ContainerState) (ev : Event)
    (h : ev ∈ checkContainer alertOnStop hostname now prev c) :
    (ev.etype = EventContainerDied ∧ ev.severity = .warning ∧
      prev.state = "running" ∧ c.state = "exited" ∧ parseExitCode c.status ≠ 0)
    ∨ (ev.etype = EventContainerStopped ∧ ev.severity = .info ∧
        prev.state = "running" ∧ c.state = "exited" ∧
        parseExitCode c.status = 0 ∧ alertOnStop = true)
    ∨ (ev.etype = EventContainerHealth ∧ ev.severity = .warning ∧
        isUnhealthy c.status = true ∧ isUnhealthy prev.status = false)
    ∨ (ev.etype = EventContainerStart ∧ ev.severity = .info ∧
        prev.state = "exited" ∧ c.state = "running") := by
  unfold checkContainer at h
  rcases List.mem_append.1 h with h1 | h1
  · rcases List.mem_append.1 h1 with h2 | h2
    · by_cases hrun : prev.state = "running" ∧ c.state = "exited"
      · rw [if_pos hrun] at h2
        by_cases hexit : parseExitCode c.status ≠ 0
        · rw [if_pos hexit] at h2
          simp at h2
          subst h2
          exact Or.inl ⟨rfl, rfl, hrun.1, hrun.2, hexit⟩
        · rw [if_neg hexit] at h2
          by_cases halert : alertOnStop
          · rw [if_pos halert] at h2
            simp at h2
            subst h2
            refine Or.inr (Or.inl ⟨rfl, rfl, hrun.1, hrun.2, ?_, halert⟩)
            exact not_not.1 hexit
          · rw [if_neg halert] at h2
            simp at h2
      · rw [if_neg hrun] at h2
        simp at h2
    · by_cases hflip : isUnhealthy c.status && !isUnhealthy prev.status
      · rw [if_pos hflip] at h2
        simp at h2
        subst h2
        have hb := hflip
        simp [Bool.and_eq_true, Bool.not_eq_true'] at hb
        exact Or.inr (Or.inr (Or.inl ⟨rfl, rfl, hb.1, hb.2⟩))
      · rw [if_neg hflip] at h2
        simp at h2
  · by_cases hrestart : prev.state = "exited" ∧ c.state = "running"
    · rw [if_pos hrestart] at h1
      simp at h1
      subst h1
      exact Or.inr (Or.inr (Or.inr ⟨rfl, rfl, hrestart.1, hrestart.2⟩))
    · rw [if_neg hrestart] at h1
      simp at h1

/-- C6: for a baselined container going running→exited, a non-zero
parsed exit code (the integer between the first `(` and `)` of the
status) emits exactly one `container_died` at Warning and no
`container_stopped`; a zero (or absent) exit code emits
`container_stopped` at Info iff `alert_on_stop` is set; a health flip to
`(unhealthy)` emits `container_unhealthy` at Warning iff the container
was not already unhealthy. -/
theorem C6_docker_transitions (alertOnStop : Bool) (hostname : String)
    (now : Int) (prev c : ContainerState) :
    (prev.state = "running" → c.state = "exited" → parseExitCode c.status ≠ 0 →
      ((checkContainer alertOnStop hostname now prev c).filter
          (fun ev => ev.etype = EventContainerDied)).length = 1
      ∧ (∀ ev ∈ checkContainer alertOnStop hostname now prev c,
          ev.etype = EventContainerDied → ev.severity = .warning)
      ∧ (∀ ev ∈ checkContainer alertOnStop hostname now prev c,
          ev.etype ≠ EventContainerStopped))
    ∧ (prev.state = "running" → c.state = "exited" → parseExitCode c.status = 0 →
      (((∃ ev ∈ checkContainer alertOnStop hostname now prev c,
          ev.etype = EventContainerStopped)) ↔ alertOnStop = true)
      ∧ (∀ ev ∈ checkContainer alertOnStop hostname now prev c,
          ev.etype = EventContainerStopped → ev.severity = .info))
    ∧ ((isUnhealthy c.status = true ∧ isUnhealthy prev.status = false) ↔
        ∃ ev ∈ checkContainer alertOnStop hostname now prev c,
          ev.etype = EventContainerHealth)
    ∧ (∀ ev ∈ checkContainer alertOnStop hostname now prev c,
        ev.etype = EventContainerHealth → ev.severity = .warning)
    ∧ (isUnhealthy prev.status = true →
        ∀ ev ∈ checkContainer alertOnStop hostname now prev c,
          ev.etype ≠ EventContainerHealth) := by
  have hds : EventContainerDied ≠ EventContainerStopped := by decide
  have hdh : EventContainerDied ≠ EventContainerHealth := by decide
  have hdr : EventContainerDied ≠ EventContainerStart := by decide
  have hsh : EventContainerStopped ≠ EventContainerHealth := by decide
  have hsr : EventContainerStopped ≠ EventContainerStart := by decide
  have hhr : EventContainerHealth ≠ EventContainerStart := by decide
  refine ⟨?_, ?_, ?_, ?_, ?_⟩
  · intro h1 h2 h3
    have hrun : prev.state = "running" ∧ c.state = "exited" := ⟨h1, h2⟩
    have hnr : ¬ (prev.state = "exited" ∧ c.state = "running") := by
      rintro ⟨ha, _⟩
      rw [h1] at ha
      exact absurd ha (by decide)
    refine ⟨?_, ?_, ?_⟩
    · unfold checkContainer
      rw [if_pos hrun, if_pos h3, if_neg hnr]
      by_cases hflip : isUnhealthy c.status && !isUnhealthy prev.status
      · rw [if_pos hflip]
        simp [dockerEmit, hdh, EventContainerDied, EventContainerHealth]
      · rw [if_neg hflip]
        simp [dockerEmit]
    · intro ev hev hty
      rcases checkContainer_cases alertOnStop hostname now prev c ev hev with
        h | h | h | h
      · exact h.2.1
      · exact absurd (h.1.symm.trans hty) hds.symm
      · exact absurd (h.1.symm.trans hty) hdh.symm
      · exact absurd (h.1.symm.trans hty) hdr.symm
    · intro ev hev hty
      rcases checkContainer_cases alertOnStop hostname now prev c ev hev with
        h | h | h | h
      · exact absurd (h.1.symm.trans hty) hds
      · exact absurd h.2.2.2.2.1 h3
      · exact absurd (h.1.symm.trans hty) hsh.symm
      · exact absurd (h.1.symm.trans hty) hsr.symm
  · intro h1 h2 h3
    have hrun : prev.state = "running" ∧ c.state = "exited" := ⟨h1, h2⟩
    have hnr : ¬ (prev.state = "exited" ∧ c.state = "running") := by
      rintro ⟨ha, _⟩
      rw [h1] at ha
      exact absurd ha (by decide)
    have hnz : ¬ parseExitCode c.status ≠ 0 := by
      rw [h3]
      exact not_not.2 rfl
    constructor
    · constructor
      · rintro ⟨ev, hev, hty⟩
        rcases checkContainer_cases alertOnStop hostname now prev c ev hev with
          h | h | h | h
        · exact absurd h3 h.2.2.2.2
        · exact h.2.2.2.2.2
        · exact absurd (h.1.symm.trans hty) hsh.symm
        · exact absurd (h.1.symm.trans hty) hsr.symm
      · intro halert
        refine ⟨dockerEmit hostname now EventContainerStopped .info
          ("Container stopped: " ++ c.names) "" c, ?_, rfl⟩
        unfold checkContainer
        rw [if_pos hrun, if_neg hnz, if_pos halert]
        exact List.mem_append.2 (Or.inl (List.mem_append.2 (Or.inl (by simp))))
    · intro ev hev hty
      rcases checkContainer_cases alertOnStop hostname now prev c ev hev with
        h | h | h | h
      · exact absurd (h.1.symm.trans hty) hds
      · exact h.2.1
      · exact absurd (h.1.symm.trans hty) hsh.symm
      · exact absurd (h.1.symm.trans hty) hsr.symm
  · constructor
    · rintro ⟨hc, hp⟩
      have hflip : isUnhealthy c.status && !isUnhealthy prev.status := by
        rw [hc, hp]
        rfl
      refine ⟨dockerEmit hostname now EventContainerHealth .warning
        ("Container unhealthy: " ++ c.names)
        ("Check container logs: docker logs " ++ c.names) c, ?_, rfl⟩
      unfold checkContainer
      rw [if_pos hflip]
      exact List.mem_append.2 (Or.inl (List.mem_append.2 (Or.inr (by simp))))
    · rintro ⟨ev, hev, hty⟩
      rcases checkContainer_cases alertOnStop hostname now prev c ev hev with
        h | h | h | h
      · exact absurd (h.1.symm.trans hty) hdh
      · exact absurd (h.1.symm.trans hty) hsh
      · exact ⟨h.2.2.1, h.2.2.2⟩
      · exact absurd (h.1.symm.trans hty) hhr.symm
  · intro ev hev hty
    rcases checkContainer_cases alertOnStop hostname now prev c ev hev with
      h | h | h | h
    · exact absurd (h.1.symm.trans hty) hdh
    · exact absurd (h.1.symm.trans hty) hsh
    · exact h.2.1
    · exact absurd (h.1.symm.trans hty) hhr.symm
  · intro hup ev hev hty
    rcases checkContainer_cases alertOnStop hostname now prev c ev hev with
      h | h | h | h
    · exact absurd (h.1.symm.trans hty) hdh
    · exact absurd (h.1.symm.trans hty) hsh
    · exact absurd (hup.symm.trans h.2.2.2) (by decide)
    · exact absurd (h.1.symm.trans hty) hhr.symm

/-! ## Event store — `internal/store/sqlite.go`

`SaveEvent` stores `json.Marshal(event)` as the payload column;
`GetRecentEvents` reads the payload back through `json.Unmarshal`. The
serialisation is modelled structurally as a JSON tree following the
`json:"..."` struct tags of `pkg/models` (including `omitempty` on the
three pointer payloads, zero-value defaults for absent fields, and
errors on type mismatches, as `encoding/json` behaves). -/

inductive Json where
  | str (s : String)
  | num (n : Int)
  | bool (b : Bool)
  | null
  | obj (fields : List (String × Json))

def encodePortInfo (p : PortInfo) : Json :=
  .obj [("address", .str p.address), ("protocol", .str p.protocol),
    ("pid", .num p.pid), ("process_name", .str p.processName),
    ("container_name", .str p.containerName),
    ("container_id", .str p.containerID), ("is_exposed", .bool p.isExposed)]

def encodeFirewallState (f : FirewallState) : Json :=
  .obj [("chain", .str f.chain), ("table", .str f.table),
    ("policy", .str f.policy), ("rule_hash", .str f.ruleHash),
    ("has_drop_rule", .bool f.hasDropRule)]

def encodeSystemHealth (h : SystemHealth) : Json :=
  .obj [("disk_usage_percent", .num h.diskUsagePercent),
    ("memory_used_percent", .num h.memoryUsedPercent),
    ("cpu_temp_celsius", .num h.cpuTempCelsius),
    ("uptime_seconds", .num h.uptimeSeconds),
    ("containers_running", .num h.containersRunning),
    ("containers_healthy", .num h.containersHealthy),
    ("listening_ports", .num h.listeningPorts)]

/-- Embeds `json.Marshal` of `models.Event`: every plain field, then each of the
three `omitempty` pointer payloads only when non-nil. -/
def encodeEvent (e : Event) : Json :=
  .obj ([("id", .str e.id), ("type", .str e.etype),
      ("severity", .num (sevInt e.severity)), ("hostname", .str e.hostname),
      ("timestamp", .num e.timestamp), ("message", .str e.message),
      ("details", .str e.details), ("suggested", .str e.suggested),
      ("source", .str e.source)]
    ++ (match e.port with
        | some p => [("port", encodePortInfo p)]
        | none => [])
    ++ (match e.firewall with
        | some f => [("firewall", encodeFirewallState f)]
        | none => [])
    ++ (match e.health with
        | some h => [("health", encodeSystemHealth h)]
        | none => []))

/-- Unmarshal a string field: absent / null leaves the zero value. -/
def jStr : Option Json → Option String
  | none => some ""
  | some .null => some ""
  | some (.str s) => some s
  | some _ => none

def jInt : Option Json → Option Int
  | none => some 0
  | some .null => some 0
  | some (.num n) => some n
  | some _ => none

def jBool : Option Json → Option Bool
  | none => some false
  | some .null => some false
  | some (.bool b) => some b
  | some _ => none

def jSev : Option Json → Option Severity
  | none => some .info
  | some .null => some .info
  | some (.num n) => sevOfInt n
  | some _ => none

def jOpt {α : Type} (f : Json → Option α) : Option Json → Option (Option α)
  | none => some none
  | some .null => some none
  | some j => (f j).map some

def decodePortInfo : Json → Option PortInfo
  | .obj fields => do
    let address ← jStr (lookupKey fields "address")
    let protocol ← jStr (lookupKey fields "protocol")
    let pid ← jInt (lookupKey fields "pid")
    let processName ← jStr (lookupKey fields "process_name")
    let containerName ← jStr (lookupKey fields "container_name")
    let containerID ← jStr (lookupKey fields "container_id")
    let isExposed ← jBool (lookupKey fields "is_exposed")
    pure ⟨address, protocol, pid, processName, containerName, containerID, isExposed⟩
  | _ => none

def decodeFirewallState : Json → Option FirewallState
  | .obj fields => do
    let chain ← jStr (lookupKey fields "chain")
    let table ← jStr (lookupKey fields "table")
    let policy ← jStr (lookupKey fields "policy")
    let ruleHash ← jStr (lookupKey fields "rule_hash")
    let hasDropRule ← jBool (lookupKey fields "has_drop_rule")
    pure ⟨chain, table, policy, ruleHash, hasDropRule⟩
  | _ => none

def decodeSystemHealth : Json → Option SystemHealth
  | .obj fields => do
    let disk ← jInt (lookupKey fields "disk_usage_percent")
    let memory ← jInt (lookupKey fields "memory_used_percent")
    let temp ← jInt (lookupKey fields "cpu_temp_celsius")
    let uptime ← jInt (lookupKey fields "uptime_seconds")
    let running ← jInt (lookupKey fields "containers_running")
    let healthy ← jInt (lookupKey fields "containers_healthy")
    let ports ← jInt (lookupKey fields "listening_ports")
    pure ⟨disk, memory, temp, uptime, running, healthy, ports⟩
  | _ => none

/-- Embeds `json.Unmarshal` into `models.Event`. -/
def decodeEvent : Json → Option Event
  | .obj fields => do
    let id ← jStr (lookupKey fields "id")
    let etype ← jStr (lookupKey fields "type")
    let severity ← jSev (lookupKey fields "severity")
    let hostname ← jStr (lookupKey fields "hostname")
    let timestamp ← jInt (lookupKey fields "timestamp")
    let message ← jStr (lookupKey fields "message")
    let details ← jStr (lookupKey fields "details")
    let suggested ← jStr (lookupKey fields "suggested")
    let source ← jStr (lookupKey fields "source")
    let port ← jOpt decodePortInfo (lookupKey fields "port")
    let firewall ← jOpt decodeFirewallState (lookupKey fields "firewall")
    let health ← jOpt decodeSystemHealth (lookupKey fields "health")
    pure ⟨id, etype, severity, hostname, timestamp, message, details,
      suggested, source, port, firewall, health⟩
  | _ => none

/-- The payload blob is a lossless serialisation of the whole `Event`. -/
theorem decodeEvent_encodeEvent (e : Event) :
    decodeEvent (encodeEvent e) = some e := by
  rcases e with ⟨id, etype, severity, hostname, timestamp, message, details,
    suggested, source, port, firewall, health⟩
  cases severity <;> cases port <;> cases firewall <;> cases health <;> rfl

/-- One row of the `events` table (sqlite.go lines 42-54); `notified`
defaults to false on insert. -/
structure Row where
  id : String
  etype : String
  severity : Int
  hostname : String
  timestamp : Int
  message : String
  details : String
  suggested : String
  source : String
  payload : Json
  notified : Bool

/-- Embeds `Store.SaveEvent` (sqlite.go lines 75-84): `INSERT OR REPLACE` keyed
by the `id` primary key, with `payload` = `json.Marshal(event)`. -/
def SaveEvent (tbl : List Row) (e : Event) : List Row :=
  (tbl.filter fun r => r.id ≠ e.id) ++
    [{ id := e.id, etype := e.etype, severity := sevInt e.severity,
       hostname := e.hostname, timestamp := e.timestamp,
       message := e.message, details := e.details,
       suggested := e.suggested, source := e.source,
       payload := encodeEvent e, notified := false }]

def insertDesc (r : Row) : List Row → List Row
  | [] => [r]
  | x :: xs => if x.timestamp ≤ r.timestamp then r :: x :: xs else x :: insertDesc r xs

/-- Embeds `ORDER BY timestamp DESC`. -/
def sortByTimestampDesc (rows : List Row) : List Row := rows.foldr insertDesc []

/-- Embeds `Store.GetRecentEvents` (sqlite.go lines 87-112): rows with
`timestamp > now − hours·3600`, newest first, capped at 100, each payload
unmarshalled back to an `Event` (rows that fail to decode are skipped). -/
def GetRecentEvents (tbl : List Row) (hours : Int) (now : Int) : List Event :=
  let since := now - hours * 3600
  let rows := (sortByTimestampDesc (tbl.filter fun r => since < r.timestamp)).take 100
  rows.filterMap fun r => decodeEvent r.payload

/-- Embeds `Store.Prune` (sqlite.go lines 158-165): delete rows with
`timestamp < now.AddDate(0, 0, -days)` and return the number of rows
deleted. In the Unix-seconds time model `AddDate(0,0,-d)` is
`now − d·86400` (civil-calendar effects are outside the embedding). -/
def Prune (tbl : List Row) (days : Nat) (now : Int) : List Row × Int :=
  let cutoff := now - (days : Int) * 86400
  (tbl.filter fun r => ¬ r.timestamp < cutoff,
   ((tbl.filter fun r => r.timestamp < cutoff).length : Int))

/-- C7: a saved event read back through the recent-events query is equal
to the original in every field, including the optional payloads — the
payload blob round-trips losslessly. -/
theorem C7_save_recent_roundtrip (e : Event) (hours now : Int) :
    (decodeEvent (encodeEvent e) = some e)
    ∧ (now - hours * 3600 < e.timestamp →
        GetRecentEvents (SaveEvent [] e) hours now = [e]) := by
  refine ⟨decodeEvent_encodeEvent e, ?_⟩
  intro h
  simp [GetRecentEvents, SaveEvent, sortByTimestampDesc, insertDesc, h,
    decodeEvent_encodeEvent]

theorem prune_length_partition (l : List Row) (cutoff : Int) :
    (l.filter fun r => ¬ r.timestamp < cutoff).length
      + (l.filter fun r => r.timestamp < cutoff).length = l.length := by
  induction l with
  | nil => rfl
  | cons x xs ih =>
    by_cases hx : x.timestamp < cutoff
    · have h1 : (List.filter (fun r => ¬ r.timestamp < cutoff) (x :: xs)).length =
          (List.filter (fun r => ¬ r.timestamp < cutoff) xs).length := by
        simp [List.filter_cons, hx]
      have h2 : (List.filter (fun r => r.timestamp < cutoff) (x :: xs)).length =
          (List.filter (fun r => r.timestamp < cutoff) xs).length + 1 := by
        simp [List.filter_cons, hx]
      rw [h1, h2, List.length_cons]
      omega
    · have h1 : (List.filter (fun r => ¬ r.timestamp < cutoff) (x :: xs)).length =
          (List.filter (fun r => ¬ r.timestamp < cutoff) xs).length + 1 := by
        simp [List.filter_cons, not_lt.1 hx]
      have h2 : (List.filter (fun r => r.timestamp < cutoff) (x :: xs)).length =
          (List.filter (fun r => r.timestamp < cutoff) xs).length := by
        simp [List.filter_cons, hx]
      rw [h1, h2, List.length_cons]
      omega

/-- C8: `Prune d` deletes exactly the rows with
`timestamp < now − d·86400`, returns their number, and leaves the rows
at or after the cutoff unchanged (a sublist of the original table whose
members are exactly the surviving rows). -/
theorem C8_prune_cutoff (tbl : List Row) (days : Nat) (now : Int) :
    ((Prune tbl days now).2 =
      ((tbl.filter fun r => r.timestamp < now - (days : Int) * 86400).length : Int))
    ∧ (∀ r, r ∈ (Prune tbl days now).1 ↔
        (r ∈ tbl ∧ now - (days : Int) * 86400 ≤ r.timestamp))
    ∧ ((Prune tbl days now).1.Sublist tbl)
    ∧ (((Prune tbl days now).1.length : Int) + (Prune tbl days now).2 =
        (tbl.length : Int)) := by
  refine ⟨rfl, ?_, ?_, ?_⟩
  · intro r
    unfold Prune
    simp [List.mem_filter, not_lt]
  · exact List.filter_sublist tbl
  · simp only [Prune]
    exact_mod_cast prune_length_partition tbl (now - (days : Int) * 86400)

/-! ## Configuration validation — `internal/config/config.go`

The `Config` model keeps the fields `Validate` and `Load` read
(notification sinks and `alerts.min_severity`); the watcher sections are
threaded to the watcher models directly as parameters. -/

structure TelegramConfig where
  enabled : Bool
  botToken : String
  chatID : String
  interactive : Bool
deriving DecidableEq, Repr

structure NtfyConfig where
  enabled : Bool
  topic : String
  server : String
  token : String
deriving DecidableEq, Repr

structure DiscordConfig where
  enabled : Bool
  webhookURL : String
deriving DecidableEq, Repr

structure WebhookConfig where
  enabled : Bool
  url : String
  method : String
deriving DecidableEq, Repr

structure NotificationConfig where
  telegram : TelegramConfig
  ntfy : NtfyConfig
  discord : DiscordConfig
  webhook : WebhookConfig
deriving DecidableEq, Repr

structure AlertConfig where
  minSeverity : String
  dailySummary : String
deriving DecidableEq, Repr

structure Config where
  notifications : NotificationConfig
  alerts : AlertConfig
deriving DecidableEq, Repr

/-- Embeds `Config.HasNotifier` (config.go lines 258-263). -/
def HasNotifier (c : Config) : Bool :=
  c.notifications.telegram.enabled || c.notifications.ntfy.enabled ||
    c.notifications.discord.enabled || c.notifications.webhook.enabled

/-- The `validSeverities` lookup (config.go line 249). -/
def validSeverity (s : String) : Bool :=
  s = "info" || s = "warning" || s = "critical"

/-- Embeds `Config.Validate` (config.go lines 226-255): the first error found —
no notifier enabled; telegram enabled without bot_token / chat_id; ntfy
enabled without topic; min_severity (lower-cased) not in the valid set.
Discord and webhook carry no required-field checks (pinned by
`TestValidate_DiscordNoExtraValidation` in config_test.go). -/
def Validate (c : Config) : Option String :=
  if ¬ HasNotifier c then
    some "at least one notification channel must be enabled"
  else if c.notifications.telegram.enabled ∧ c.notifications.telegram.botToken = "" then
    some "telegram bot_token is required when telegram is enabled"
  else if c.notifications.telegram.enabled ∧ c.notifications.telegram.chatID = "" then
    some "telegram chat_id is required when telegram is enabled"
  else if c.notifications.ntfy.enabled ∧ c.notifications.ntfy.topic = "" then
    some "ntfy topic is required when ntfy is enabled"
  else if ¬ validSeverity (goToLower c.alerts.minSeverity) then
    some ("invalid min_severity: " ++ c.alerts.minSeverity ++
      " (must be info, warning, or critical)")
  else
    none

/-- The post-parse step of `config.Load` (config.go lines 153-157): a
validation error makes the daemon refuse to start. -/
def Load (c : Config) : Except String Config :=
  match Validate c with
  | some err => .error ("invalid config: " ++ err)
  | none => .ok c

/-- Modelled from the spec: "enabled notifiers must have their required
fields populated" — reading each sink's credential/endpoint fields as its
required fields (telegram: bot_token and chat_id; ntfy: topic; discord:
webhook_url; webhook: url). Used to compare the spec's validation clause
with the code's `Validate`. -/
def specMissingRequiredField (c : Config) : Bool :=
  (c.notifications.telegram.enabled &&
    (c.notifications.telegram.botToken == "" || c.notifications.telegram.chatID == ""))
  || (c.notifications.ntfy.enabled && c.notifications.ntfy.topic == "")
  || (c.notifications.discord.enabled && c.notifications.discord.webhookURL == "")
  || (c.notifications.webhook.enabled && c.notifications.webhook.url == "")

/-- A config whose only enabled sink is Discord with an empty
webhook_url, and a valid min_severity. -/
def cfgDiscordEmpty : Config :=
  { notifications :=
      { telegram := { enabled := false, botToken := "", chatID := "", interactive := false }
        ntfy := { enabled := false, topic := "", server := "", token := "" }
        discord := { enabled := true, webhookURL := "" }
        webhook := { enabled := false, url := "", method := "" } }
    alerts := { minSeverity := "info", dailySummary := "" } }

/-- C9 counterexample: validation accepts a config whose only enabled
notifier (Discord) is missing its required field (its webhook URL), so
"fails iff … an enabled notifier is missing one of its required fields"
does not hold of `Validate`. -/
theorem C9_cex_discord_unchecked :
    Validate cfgDiscordEmpty = none
    ∧ specMissingRequiredField cfgDiscordEmpty = true := by
  constructor
  · rfl
  · rfl

/-- C9 (amended): validation fails iff no notification channel is
enabled, or telegram is enabled missing bot_token or chat_id, or ntfy is
enabled missing its topic, or min_severity lower-cased is not one of
info / warning / critical; discord and webhook have no required-field
checks; `Load` refuses exactly when `Validate` errors. -/
theorem C9_validate_characterisation (c : Config) :
    ((Validate c).isSome = true ↔
      (HasNotifier c = false
        ∨ (c.notifications.telegram.enabled = true ∧
            (c.notifications.telegram.botToken = "" ∨
              c.notifications.telegram.chatID = ""))
        ∨ (c.notifications.ntfy.enabled = true ∧ c.notifications.ntfy.topic = "")
        ∨ validSeverity (goToLower c.alerts.minSeverity) = false))
    ∧ (Load c = .ok c ↔ Validate c = none) := by
  constructor
  · unfold Validate
    by_cases h1 : HasNotifier c
    · rw [if_neg (not_not_intro h1)]
      by_cases h2 : c.notifications.telegram.enabled ∧ c.notifications.telegram.botToken = ""
      · rw [if_pos h2]
        simp only [Option.isSome_some, true_iff]
        exact Or.inr (Or.inl ⟨h2.1, Or.inl h2.2⟩)
      · rw [if_neg h2]
        by_cases h3 : c.notifications.telegram.enabled ∧ c.notifications.telegram.chatID = ""
        · rw [if_pos h3]
          simp only [Option.isSome_some, true_iff]
          exact Or.inr (Or.inl ⟨h3.1, Or.inr h3.2⟩)
        · rw [if_neg h3]
          by_cases h4 : c.notifications.ntfy.enabled ∧ c.notifications.ntfy.topic = ""
          · rw [if_pos h4]
            simp only [Option.isSome_some, true_iff]
            exact Or.inr (Or.inr (Or.inl h4))
          · rw [if_neg h4]
            by_cases h5 : validSeverity (goToLower c.alerts.minSeverity)
            · rw [if_neg (not_not_intro h5)]
              simp only [Option.isSome_none]
              refine ⟨fun hfalse => Bool.noConfusion hfalse, fun hr => False.elim ?_⟩
              rcases hr with ha | hb | hc | hd
              · exact Bool.noConfusion (h1.symm.trans ha)
              · rcases hb.2 with hx | hx
                · exact h2 ⟨hb.1, hx⟩
                · exact h3 ⟨hb.1, hx⟩
              · exact h4 hc
              · exact Bool.noConfusion (h5.symm.trans hd)
            · rw [if_pos h5]
              simp only [Option.isSome_some, true_iff]
              exact Or.inr (Or.inr (Or.inr (by simpa using h5)))
    · rw [if_pos h1]
      simp only [Option.isSome_some, true_iff]
      exact Or.inl (by simpa using h1)
  · unfold Load
    cases hv : Validate c with
    | none => simp
    | some err => simp

/-! ## Interactive command handler — Telegram bot (src/unnamed/part_001)

Each privileged command is modelled as `args → (performed, response)`:
`performed` is whether the guarded action (exec of reboot / docker rm /
docker prune) is invoked; `response` is the reply string on the
non-performed paths (on the performed paths the Go reply depends on the
executed command's output, which is outside the model, so it is ""). -/

/-- Embeds `html.EscapeString`. -/
def htmlEscape (s : String) : String :=
  String.mk (s.data.map (fun c =>
    if c = '&' then "&amp;".data
    else if c = '\'' then "&#39;".data
    else if c = '<' then "&lt;".data
    else if c = '>' then "&gt;".data
    else if c = '"' then "&#34;".data
    else [c])).flatten

/-- Embeds `cmdReboot` (part_001 lines 753-766): `parts` is the whitespace-split
message, `parts[0]` the command itself. The guard checks `parts[1]` — the
first argument — not the last. -/
def cmdReboot (parts : List String) : Bool × String :=
  match parts with
  | _ :: arg1 :: _ =>
    if goToUpper arg1 ≠ "CONFIRM" then
      (false, "⚠️ <b>Reboot requires confirmation</b>\n\nSend: /reboot CONFIRM")
    else
      (true, "")
  | _ =>
    (false, "⚠️ <b>Reboot requires confirmation</b>\n\nSend: /reboot CONFIRM")

/-- Embeds `cmdDockerRemove` (part_001 lines 442-457): `args` is everything
after `/docker remove`; needs a name plus a trailing CONFIRM
(case-insensitive on the last argument). -/
def cmdDockerRemove (args : List String) : Bool × String :=
  match args with
  | [] => (false, "Usage: /docker remove &lt;name&gt; CONFIRM")
  | name :: _ =>
    if args.length < 2 ∨ goToUpper (args.getLastD "") ≠ "CONFIRM" then
      (false, "⚠️ This will force-remove container <b>" ++ htmlEscape name ++
        "</b>.\n\nSend: /docker remove " ++ name ++ " CONFIRM")
    else
      (true, "")

/-- Embeds `cmdDockerPrune` (part_001 lines 491-502): needs a trailing CONFIRM
(case-insensitive on the last argument). -/
def cmdDockerPrune (args : List String) : Bool × String :=
  if args.length = 0 ∨ goToUpper (args.getLastD "") ≠ "CONFIRM" then
    (false, "⚠️ <b>Docker system prune</b> removes all stopped containers, unused networks, dangling images, and build cache.\n\nSend: /docker prune CONFIRM")
  else
    (true, "")

/-- Whether the last whitespace-delimited token of the invocation equals
CONFIRM case-insensitively — the spec's stated guard. -/
def lastArgIsConfirm (parts : List String) : Bool :=
  match parts.getLast? with
  | some a => goToUpper a = "CONFIRM"
  | none => false

theorem containsSub_append_right (sub a b : List Char)
    (h : containsSub sub b = true) : containsSub sub (a ++ b) = true := by
  induction a with
  | nil => simpa using h
  | cons c t ih => simp [containsSub, ih]

theorem rebootPrompt_contains :
    goContains "⚠️ <b>Reboot requires confirmation</b>\n\nSend: /reboot CONFIRM"
      "CONFIRM" = true := by
  decide

theorem removeUsage_contains :
    goContains "Usage: /docker remove &lt;name&gt; CONFIRM" "CONFIRM" = true := by
  decide

theorem prunePrompt_contains :
    goContains "⚠️ <b>Docker system prune</b> removes all stopped containers, unused networks, dangling images, and build cache.\n\nSend: /docker prune CONFIRM"
      "CONFIRM" = true := by
  decide

/-- C5 counterexample: `/reboot CONFIRM now` performs the reboot although
the last argument of the invocation is `now`, not CONFIRM — `cmdReboot`
checks the first argument, not the last. -/
theorem C5_cex_reboot_checks_first_arg :
    (cmdReboot ["/reboot", "CONFIRM", "now"]).1 = true
    ∧ lastArgIsConfirm ["/reboot", "CONFIRM", "now"] = false := by
  constructor
  · rfl
  · rfl

/-- C5 (amended): each privileged command without its confirming
argument performs nothing and replies with a prompt containing the
literal word CONFIRM; the action runs iff — for `/reboot` — the first
argument equals CONFIRM case-insensitively, — for `/docker remove` —
there are at least two arguments and the last equals CONFIRM, — for
`/docker prune` — there is at least one argument and the last equals
CONFIRM. -/
theorem C5_confirmation_guards (parts args pargs : List String) :
    ((cmdReboot parts).1 = true ↔
      ∃ c a rest, parts = c :: a :: rest ∧ goToUpper a = "CONFIRM")
    ∧ ((cmdReboot parts).1 = false →
        goContains (cmdReboot parts).2 "CONFIRM" = true)
    ∧ ((cmdDockerRemove args).1 = true ↔
        (2 ≤ args.length ∧ goToUpper (args.getLastD "") = "CONFIRM"))
    ∧ ((cmdDockerRemove args).1 = false →
        goContains (cmdDockerRemove args).2 "CONFIRM" = true)
    ∧ ((cmdDockerPrune pargs).1 = true ↔
        (1 ≤ pargs.length ∧ goToUpper (pargs.getLastD "") = "CONFIRM"))
    ∧ ((cmdDockerPrune pargs).1 = false →
        goContains (cmdDockerPrune pargs).2 "CONFIRM" = true) := by
  refine ⟨?_, ?_, ?_, ?_, ?_, ?_⟩
  · match parts with
    | [] =>
      refine ⟨fun hfalse => Bool.noConfusion hfalse, ?_⟩
      rintro ⟨c', a', rest', heq, _⟩
      cases heq
    | [c] =>
      refine ⟨fun hfalse => Bool.noConfusion hfalse, ?_⟩
      rintro ⟨c', a', rest', heq, _⟩
      cases heq
    | c :: a :: rest =>
      simp only [cmdReboot]
      by_cases h : goToUpper a = "CONFIRM"
      · rw [if_neg (not_not_intro h)]
        exact ⟨fun _ => ⟨c, a, rest, rfl, h⟩, fun _ => rfl⟩
      · rw [if_pos h]
        refine ⟨fun hfalse => Bool.noConfusion hfalse, ?_⟩
        rintro ⟨c', a', rest', heq, hconf⟩
        cases heq
        exact absurd hconf h
  · match parts with
    | [] => exact fun _ => rebootPrompt_contains
    | [c] => exact fun _ => rebootPrompt_contains
    | c :: a :: rest =>
      simp only [cmdReboot]
      by_cases h : goToUpper a = "CONFIRM"
      · rw [if_neg (not_not_intro h)]
        exact fun hfalse => Bool.noConfusion hfalse
      · rw [if_pos h]
        exact fun _ => rebootPrompt_contains
  · match args with
    | [] =>
      refine ⟨fun hfalse => Bool.noConfusion hfalse, ?_⟩
      rintro ⟨hlen, _⟩
      simp at hlen
    | name :: rest =>
      simp only [cmdDockerRemove]
      by_cases h : (name :: rest).length < 2 ∨
          goToUpper ((name :: rest).getLastD "") ≠ "CONFIRM"
      · rw [if_pos h]
        refine ⟨fun hfalse => Bool.noConfusion hfalse, ?_⟩
        rintro ⟨hlen, hconf⟩
        rcases h with h | h
        · omega
        · exact (h hconf).elim
      · rw [if_neg h]
        push_neg at h
        exact ⟨fun _ => ⟨by omega, h.2⟩, fun _ => rfl⟩
  · match args with
    | [] => exact fun _ => removeUsage_contains
    | name :: rest =>
      simp only [cmdDockerRemove]
      by_cases h : (name :: rest).length < 2 ∨
          goToUpper ((name :: rest).getLastD "") ≠ "CONFIRM"
      · rw [if_pos h]
        intro _
        show containsSub ("CONFIRM".data)
          (("⚠️ This will force-remove container <b>" ++ htmlEscape name ++
            "</b>.\n\nSend: /docker remove " ++ name ++ " CONFIRM").data) = true
        rw [String.data_append]
        exact containsSub_append_right _ _ _ (by decide)
      · rw [if_neg h]
        exact fun hfalse => Bool.noConfusion hfalse
  · unfold cmdDockerPrune
    by_cases h : pargs.length = 0 ∨ goToUpper (pargs.getLastD "") ≠ "CONFIRM"
    · rw [if_pos h]
      refine ⟨fun hfalse => Bool.noConfusion hfalse, ?_⟩
      rintro ⟨hlen, hconf⟩
      rcases h with h | h
      · omega
      · exact (h hconf).elim
    · rw [if_neg h]
      push_neg at h
      exact ⟨fun _ => ⟨by omega, h.2⟩, fun _ => rfl⟩
  · unfold cmdDockerPrune
    by_cases h : pargs.length = 0 ∨ goToUpper (pargs.getLastD "") ≠ "CONFIRM"
    · rw [if_pos h]
      exact fun _ => prunePrompt_contains
    · rw [if_neg h]
      exact fun hfalse => Bool.noConfusion hfalse

/-! ## Concrete evaluations

The embedded functions evaluated on the spec's §8 scenarios and on the
repository's own test inputs, checked by kernel computation. -/

theorem eval_matchAddrPattern :
    matchAddrPattern "127.0.0.1:631" "127.0.0.1:*" = true
    ∧ matchAddrPattern "0.0.0.0:8080" "127.0.0.1:*" = false
    ∧ matchAddrPattern "10.0.0.1:53" "10.0.0.1:53" = true := by
  decide

theorem eval_parseExitCode :
    parseExitCode "Exited (137) 1 minute ago" = 137
    ∧ parseExitCode "Exited (0) 3 minutes ago" = 0
    ∧ parseExitCode "Up 2 hours" = 0 := by
  decide

theorem eval_isUnhealthy :
    isUnhealthy "Up 2 hours (unhealthy)" = true
    ∧ isUnhealthy "Up 2 hours (healthy)" = false := by
  decide

theorem eval_goEqualFold :
    goEqualFold "ACCEPT" "accept" = true
    ∧ goEqualFold "ACCEPT" "DROP" = false := by
  decide

def p22 : PortInfo :=
  { address := "0.0.0.0:22", protocol := "tcp", pid := 1, processName := "sshd",
    containerName := "", containerID := "", isExposed := true }

def p8080 : PortInfo :=
  { address := "0.0.0.0:8080", protocol := "tcp", pid := 2, processName := "node",
    containerName := "", containerID := "", isExposed := true }

/-- Spec §8 scenario 1: one new exposed port against a seeded baseline
emits exactly one `port.opened` at Warning. -/
theorem eval_scenario_port_opened :
    (netlinkCheck ["127.0.0.1:*"] "pi" 100 (buildPortMap [p22]) [p22, p8080]).2 =
      [emitPortOpened "pi" 100 p8080]
    ∧ (emitPortOpened "pi" 100 p8080).severity = .warning := by
  decide

def dedupFresh : Deduplicator := { seen := fun _ => none, cooldown := 3600 }

/-- Spec §8 scenario 2: an identical `port.opened` republished inside the
cooldown is suppressed; after the cooldown it passes again. -/
theorem eval_scenario_dedup :
    (ShouldAlert dedupFresh 0 (emitPortOpened "pi" 0 p8080)).1 = true
    ∧ (ShouldAlert (ShouldAlert dedupFresh 0 (emitPortOpened "pi" 0 p8080)).2
        1800 (emitPortOpened "pi" 0 p8080)).1 = false
    ∧ (ShouldAlert (ShouldAlert dedupFresh 0 (emitPortOpened "pi" 0 p8080)).2
        3601 (emitPortOpened "pi" 0 p8080)).1 = true := by
  decide

def evCritical : Event :=
  { id := "fw", etype := EventFirewallChanged, severity := .critical,
    hostname := "pi", timestamp := 0, message := "firewall breached",
    details := "", suggested := "", source := "firewall",
    port := none, firewall := none, health := none }

/-- The behaviour `TestShouldAlert_CriticalFirstAlerts_ThenDeduped` pins:
a Critical event passes first and is then deduplicated like any other. -/
theorem eval_critical_deduped :
    (ShouldAlert dedupFresh 0 evCritical).1 = true
    ∧ (ShouldAlert (ShouldAlert dedupFresh 0 evCritical).2 10 evCritical).1 = false := by
  decide

def cRun : ContainerState :=
  { id := "abc", names := "web", image := "nginx", state := "running",
    status := "Up 1 hour" }

def cExit137 : ContainerState :=
  { id := "abc", names := "web", image := "nginx", state := "exited",
    status := "Exited (137) 1 minute ago" }

/-- Spec §8 scenario 3: running→exited with status `Exited (137) …`
emits one `container_died` at Warning whose message carries the code. -/
theorem eval_scenario_container_died :
    ((checkContainer false "pi" 5 cRun cExit137).map fun ev => ev.etype) =
      [EventContainerDied]
    ∧ ∀ ev ∈ checkContainer false "pi" 5 cRun cExit137,
        ev.severity = .warning ∧ goContains ev.message "137" = true := by
  decide

/-- Spec §8 scenario 4: expected policy DROP, observed ACCEPT — one
Critical `firewall.changed` from the expectation check. -/
theorem eval_scenario_firewall_policy :
    ((checkExpectations fwCexEnv "pi" 0 [fwCexChain]).map fun ev =>
      (ev.etype, ev.severity)) = [(EventFirewallChanged, Severity.critical)] := by
  decide

/-- Spec §8 scenario 6: `/docker remove nginx` prompts with CONFIRM and
performs nothing; the CONFIRM follow-up (case-insensitive) performs it. -/
theorem eval_scenario_docker_remove :
    (cmdDockerRemove ["nginx"]).1 = false
    ∧ goContains (cmdDockerRemove ["nginx"]).2 "CONFIRM" = true
    ∧ (cmdDockerRemove ["nginx", "CONFIRM"]).1 = true
    ∧ (cmdDockerRemove ["nginx", "confirm"]).1 = true := by
  decide

def evFull : Event :=
  { id := "x1", etype := EventPortOpened, severity := .warning,
    hostname := "pi", timestamp := 42, message := "m", details := "d",
    suggested := "s", source := "netlink", port := some p8080,
    firewall := some (FirewallState.mk "INPUT" "filter" "DROP" "abcd" true),
    health := some (SystemHealth.mk 80 90 55 3600 3 3 7) }

theorem eval_roundtrip_full :
    decodeEvent (encodeEvent evFull) = some evFull := by
  rfl

theorem eval_save_recent :
    GetRecentEvents (SaveEvent [] evFull) 24 100 = [evFull] := by
  rfl

def rowAt (n : String) (t : Int) : Row :=
  { id := n, etype := "", severity := 0, hostname := "", timestamp := t,
    message := "", details := "", suggested := "", source := "",
    payload := .null, notified := false }

theorem eval_prune :
    ((Prune [rowAt "old" 50, rowAt "new" 200] 30 2592100).1.map fun r => r.id) =
      ["new"]
    ∧ (Prune [rowAt "old" 50, rowAt "new" 200] 30 2592100).2 = 1 := by
  decide

def cfgTelegramOk : Config :=
  { notifications :=
      { telegram := TelegramConfig.mk true "t0k" "42" true
        ntfy := NtfyConfig.mk false "" "" ""
        discord := DiscordConfig.mk false ""
        webhook := WebhookConfig.mk false "" "" }
    alerts := { minSeverity := "Warning", dailySummary := "08:00" } }

def cfgNoToken : Config :=
  { notifications :=
      { telegram := TelegramConfig.mk true "" "42" true
        ntfy := NtfyConfig.mk false "" "" ""
        discord := DiscordConfig.mk false ""
        webhook := WebhookConfig.mk false "" "" }
    alerts := { minSeverity := "warning", dailySummary := "" } }

def cfgBadSeverity : Config :=
  { notifications :=
      { telegram := TelegramConfig.mk true "t0k" "42" true
        ntfy := NtfyConfig.mk false "" "" ""
        discord := DiscordConfig.mk false ""
        webhook := WebhookConfig.mk false "" "" }
    alerts := { minSeverity := "none", dailySummary := "" } }

theorem eval_validate :
    Validate cfgTelegramOk = none
    ∧ (Validate cfgNoToken).isSome = true
    ∧ (Validate cfgBadSeverity).isSome = true := by
  refine ⟨rfl, rfl, rfl⟩

end PiGuard
